import Mathlib

/-!
Shallow embedding of the presence-and-delivery core of `src/server.js`
(the socket.io event handlers and the `onlineUsers` map).

The JS `Map` is modelled as an insertion-ordered association list from
identity (`Nat`) to connection handle (`String`, the socket id):
`Map.set` updates in place or appends, `Map.get` looks up, iteration and
`Map.keys` follow insertion order, and the `disconnect` loop deletes the
first entry whose value equals the terminated socket id and then breaks.

Each handler is a pure function from the server state (the online-users
map and the persisted `messages` table) and the event's fields to the new
state paired with the ordered list of observable actions it performs:
database row insertion, socket emissions (`io.to(...).emit` and
`io.emit`), and server-side `console.log` calls. The outcome of the
fallible `db.run` insert is an explicit boolean parameter `persistOk`;
the handler body follows the source's callback: on failure it logs and
returns, on success it looks up the receiver and delivers if online.
-/

namespace Mingle

structure Message where
  senderId : Nat
  receiverId : Nat
  message : Option String
  imageData : Option String
  deriving DecidableEq, Repr

inductive Action where
  | persistRow (senderId receiverId : Nat) (message imageData : Option String)
  | emitReceiveMessage (sock : String) (senderId : Nat) (message : Option String) (timestamp : Nat)
  | emitReceiveImage (sock : String) (senderId : Nat) (imageData : Option String) (timestamp : Nat)
  | emitUserTyping (sock : String) (senderId : Nat)
  | emitOnlineUsers (users : List Nat)
  | logSaveError
  | logSaveImageError
  | logOfflineSave (receiverId : Nat)
  | logOfflineImageSave (receiverId : Nat)
  | logDisconnect (sock : String)
  deriving DecidableEq, Repr

/-- JS `Map.set`: overwrite in place if the key exists, else append. -/
def mapSet : List (Nat × String) → Nat → String → List (Nat × String)
  | [], k, v => [(k, v)]
  | (k', v') :: rest, k, v =>
      if k' = k then (k, v) :: rest else (k', v') :: mapSet rest k v

/-- JS `Map.get`. -/
def mapGet : List (Nat × String) → Nat → Option String
  | [], _ => none
  | (k', v') :: rest, k => if k' = k then some v' else mapGet rest k

/-- JS `Map.keys` (insertion order). -/
def mapKeys (l : List (Nat × String)) : List Nat := l.map Prod.fst

/-- The `disconnect` loop of `server.js:343-348`: iterate the entries in
insertion order, delete the first entry whose value equals the terminated
socket id, then `break`. -/
def deleteFirstMatch : List (Nat × String) → String → List (Nat × String)
  | [], _ => []
  | (k, v) :: rest, sock =>
      if v = sock then rest else (k, v) :: deleteFirstMatch rest sock

structure ServerState where
  onlineUsers : List (Nat × String)
  messages : List Message
  deriving DecidableEq, Repr

def initialState : ServerState := ⟨[], []⟩

/-- Handler for `user_login` (`server.js:274-277`): bind the identity to
the socket id, then broadcast the keys of the map to everyone. -/
def user_login (st : ServerState) (userId : Nat) (socketId : String) :
    ServerState × List Action :=
  let m := mapSet st.onlineUsers userId socketId
  ({ st with onlineUsers := m }, [Action.emitOnlineUsers (mapKeys m)])

/-- Handler for `send_message` (`server.js:279-305`). `persistOk` is the
outcome of the `db.run` INSERT; the rest is the source callback: on error
log and return, on success look up the receiver and emit
`receive_message` if a socket is found, else log the offline save. The
INSERT names only `(sender_id, receiver_id, message)`, so `image_data`
is stored NULL. -/
def send_message (persistOk : Bool) (st : ServerState)
    (senderId receiverId : Nat) (message : Option String) (timestamp : Nat) :
    ServerState × List Action :=
  if persistOk then
    let st' := { st with
      messages := st.messages ++ [⟨senderId, receiverId, message, none⟩] }
    match mapGet st'.onlineUsers receiverId with
    | some receiverSocket =>
        (st', [Action.persistRow senderId receiverId message none,
               Action.emitReceiveMessage receiverSocket senderId message timestamp])
    | none =>
        (st', [Action.persistRow senderId receiverId message none,
               Action.logOfflineSave receiverId])
  else
    (st, [Action.logSaveError])

/-- Handler for `send_image` (`server.js:307-333`), the image analogue:
the INSERT names only `(sender_id, receiver_id, image_data)`, so
`message` is stored NULL; on success emit `receive_image` if online. -/
def send_image (persistOk : Bool) (st : ServerState)
    (senderId receiverId : Nat) (imageData : Option String) (timestamp : Nat) :
    ServerState × List Action :=
  if persistOk then
    let st' := { st with
      messages := st.messages ++ [⟨senderId, receiverId, none, imageData⟩] }
    match mapGet st'.onlineUsers receiverId with
    | some receiverSocket =>
        (st', [Action.persistRow senderId receiverId none imageData,
               Action.emitReceiveImage receiverSocket senderId imageData timestamp])
    | none =>
        (st', [Action.persistRow senderId receiverId none imageData,
               Action.logOfflineImageSave receiverId])
  else
    (st, [Action.logSaveImageError])

/-- Handler for `typing` (`server.js:335-340`): look up the receiver and
forward `user_typing {senderId}` if a socket is found; otherwise nothing
happens. No persistence, no failure path. -/
def typing (st : ServerState) (senderId receiverId : Nat) :
    ServerState × List Action :=
  match mapGet st.onlineUsers receiverId with
  | some receiverSocket => (st, [Action.emitUserTyping receiverSocket senderId])
  | none => (st, [])

/-- Handler for `disconnect` (`server.js:342-351`): delete the first map
entry bound to the terminated socket id (if any), then broadcast the
updated key set and log. -/
def disconnect (st : ServerState) (socketId : String) :
    ServerState × List Action :=
  let m := deleteFirstMatch st.onlineUsers socketId
  ({ st with onlineUsers := m },
   [Action.emitOnlineUsers (mapKeys m), Action.logDisconnect socketId])

/-- Socket emissions directed at clients (as opposed to DB writes and
server-side log output). -/
def isEmit : Action → Bool
  | Action.emitReceiveMessage _ _ _ _ => true
  | Action.emitReceiveImage _ _ _ _ => true
  | Action.emitUserTyping _ _ => true
  | Action.emitOnlineUsers _ => true
  | _ => false

/-- Real-time message/image delivery emissions. -/
def isDelivery : Action → Bool
  | Action.emitReceiveMessage _ _ _ _ => true
  | Action.emitReceiveImage _ _ _ _ => true
  | _ => false

def isPersist : Action → Bool
  | Action.persistRow _ _ _ _ => true
  | _ => false

/-- Scanning a trace from the start, no delivery emission occurs before
the first persisted row. -/
def noDeliveryBeforePersist : List Action → Bool
  | [] => true
  | a :: rest =>
      if isPersist a then true else !isDelivery a && noDeliveryBeforePersist rest

end Mingle

namespace Mingle

theorem mapGet_mapSet_self (l : List (Nat × String)) (k : Nat) (v : String) :
    mapGet (mapSet l k v) k = some v := by
  induction l with
  | nil => simp [mapSet, mapGet]
  | cons p rest ih =>
      obtain ⟨k', v'⟩ := p
      by_cases h : k' = k
      · subst h; simp [mapSet, mapGet]
      · simp [mapSet, mapGet, h, ih]

theorem mem_mapKeys_mapSet (l : List (Nat × String)) (k : Nat) (v : String) :
    k ∈ mapKeys (mapSet l k v) := by
  induction l with
  | nil => simp [mapSet, mapKeys]
  | cons p rest ih =>
      obtain ⟨k', v'⟩ := p
      by_cases h : k' = k
      · subst h; simp [mapSet, mapKeys]
      · simp [mapSet, mapKeys, h] at ih ⊢
        exact Or.inr ih

theorem deleteFirstMatch_eq_self (l : List (Nat × String)) (s : String)
    (h : ∀ p ∈ l, p.2 ≠ s) : deleteFirstMatch l s = l := by
  induction l with
  | nil => rfl
  | cons p rest ih =>
      obtain ⟨k, v⟩ := p
      have hv : v ≠ s := h (k, v) (List.mem_cons_self _ _)
      simp [deleteFirstMatch, hv]
      exact ih fun q hq => h q (List.mem_cons_of_mem _ hq)

theorem deleteFirstMatch_append (l1 : List (Nat × String)) (A : Nat) (H : String)
    (l2 : List (Nat × String)) (h : ∀ p ∈ l1, p.2 ≠ H) :
    deleteFirstMatch (l1 ++ (A, H) :: l2) H = l1 ++ l2 := by
  induction l1 with
  | nil => simp [deleteFirstMatch]
  | cons p rest ih =>
      obtain ⟨k, v⟩ := p
      have hv : v ≠ H := h (k, v) (List.mem_cons_self _ _)
      simp [deleteFirstMatch, hv]
      exact ih fun q hq => h q (List.mem_cons_of_mem _ hq)

theorem deleteFirstMatch_sublist (l : List (Nat × String)) (s : String) :
    List.Sublist (deleteFirstMatch l s) l := by
  induction l with
  | nil => simp [deleteFirstMatch]
  | cons p rest ih =>
      obtain ⟨k, v⟩ := p
      by_cases h : v = s
      · simp [deleteFirstMatch, h]
      · simpa [deleteFirstMatch, h] using ih.cons₂ (k, v)

theorem length_deleteFirstMatch (l : List (Nat × String)) (s : String) :
    l.length ≤ (deleteFirstMatch l s).length + 1 := by
  induction l with
  | nil => simp [deleteFirstMatch]
  | cons p rest ih =>
      obtain ⟨k, v⟩ := p
      by_cases h : v = s
      · simp [deleteFirstMatch, h]
      · simp [deleteFirstMatch, h]
        omega

theorem mem_deleteFirstMatch_suffix (l1 : List (Nat × String)) (B : Nat)
    (H : String) (l2 : List (Nat × String)) (p : Nat × String) (hp : p ∈ l2) :
    p ∈ deleteFirstMatch (l1 ++ (B, H) :: l2) H := by
  induction l1 with
  | nil => simp [deleteFirstMatch, hp]
  | cons q rest ih =>
      obtain ⟨k, v⟩ := q
      by_cases h : v = H
      · simp [deleteFirstMatch, h, hp]
      · simp [deleteFirstMatch, h]
        exact Or.inr ih

/-- Claim C1: every successful send (`send_message` or `send_image` with a
successful INSERT) appends to the messages table exactly one row carrying
the supplied sender id, receiver id and payload, with the other payload
column stored null — for every server state, hence regardless of whether
the receiver is present in the online-users map. -/
theorem C1_send_persists_exact_row (st : ServerState) (s r : Nat)
    (m : Option String) (t : Nat) :
    (send_message true st s r m t).1.messages = st.messages ++ [⟨s, r, m, none⟩] ∧
    (send_image true st s r m t).1.messages = st.messages ++ [⟨s, r, none, m⟩] := by
  constructor <;>
    cases h : mapGet st.onlineUsers r <;>
      simp [send_message, send_image, h]

/-- Claim C2: for a send whose persistence succeeds, the handler emits
exactly one delivery event (`receive_message` / `receive_image`) carrying
the sender id, payload and timestamp to the receiver's currently mapped
socket when the receiver is in the online-users map, and zero delivery
events when absent; in both handlers no other socket emission (in
particular no error back to the sender) occurs. -/
theorem C2_delivery_iff_online (st : ServerState) (s r : Nat)
    (m : Option String) (t : Nat) :
    ((send_message true st s r m t).2.filter isDelivery =
      match mapGet st.onlineUsers r with
      | some sock => [Action.emitReceiveMessage sock s m t]
      | none => []) ∧
    ((send_image true st s r m t).2.filter isDelivery =
      match mapGet st.onlineUsers r with
      | some sock => [Action.emitReceiveImage sock s m t]
      | none => []) ∧
    (send_message true st s r m t).2.filter (fun a => isEmit a && !isDelivery a) = [] ∧
    (send_image true st s r m t).2.filter (fun a => isEmit a && !isDelivery a) = [] := by
  refine ⟨?_, ?_, ?_, ?_⟩ <;>
    cases h : mapGet st.onlineUsers r <;>
      simp [send_message, send_image, h, isDelivery, isEmit]

/-- Claim C3 (counterexample): at a concrete failing persistence, the
handler performs no socket emission at all — the sender receives nothing
and is never told the send failed — refuting the claim that the failure
is reported to the calling sender. The state is also unchanged. -/
theorem C3_failure_not_reported_counterexample :
    (send_message false initialState 1 2 (some "hi") 0).2.filter isEmit = [] ∧
    (send_image false initialState 1 2 (some "img") 0).2.filter isEmit = [] ∧
    (send_message false initialState 1 2 (some "hi") 0).1 = initialState := by decide

/-- Claim C3 (amended): on persistence failure the operation aborts with
no delivery attempted and no observable state change; the error callback
only writes a server-side log line and returns, so the failure is not
reported to the sender. -/
theorem C3_persist_failure_aborts_and_only_logs (st : ServerState) (s r : Nat)
    (m : Option String) (t : Nat) :
    send_message false st s r m t = (st, [Action.logSaveError]) ∧
    send_image false st s r m t = (st, [Action.logSaveImageError]) :=
  ⟨rfl, rfl⟩

/-- Claim C4 (counterexample): a send with no payload at all
(`message` undefined, modelled as `none`) is not rejected: the handler
persists a Message row with both payload columns null and surfaces
nothing to the sender — refuting the claim that malformed payloads are
rejected before persistence with nothing written. -/
theorem C4_missing_payload_persisted_counterexample :
    send_message true initialState 1 2 none 0 =
      (⟨[], [⟨1, 2, none, none⟩]⟩,
       [Action.persistRow 1 2 none none, Action.logOfflineSave 2]) := rfl

/-- Claim C4 (amended): the handlers perform no payload validation; a
send with a missing payload proceeds exactly like a well-formed one —
the very first action is the row insertion (no rejection precedes it)
and a row with both payload columns null is written. -/
theorem C4_no_payload_validation (st : ServerState) (s r t : Nat) :
    (send_message true st s r none t).1.messages = st.messages ++ [⟨s, r, none, none⟩] ∧
    (send_message true st s r none t).2.head? = some (Action.persistRow s r none none) ∧
    (send_image true st s r none t).1.messages = st.messages ++ [⟨s, r, none, none⟩] ∧
    (send_image true st s r none t).2.head? = some (Action.persistRow s r none none) := by
  refine ⟨?_, ?_, ?_, ?_⟩ <;>
    cases h : mapGet st.onlineUsers r <;>
      simp [send_message, send_image, h]

/-- Claim C5: after an identity logs in from two handles in sequence, the
online-users map resolves that identity to the most recent handle, and
every subsequent delivery to that identity — text, image, and typing —
targets exactly that handle. -/
theorem C5_last_login_wins (st : ServerState) (A : Nat) (H1 H2 : String)
    (s : Nat) (m : Option String) (t u : Nat) :
    mapGet ((user_login (user_login st A H1).1 A H2).1).onlineUsers A = some H2 ∧
    ((send_message true (user_login (user_login st A H1).1 A H2).1 s A m t).2.filter isDelivery =
      [Action.emitReceiveMessage H2 s m t]) ∧
    ((send_image true (user_login (user_login st A H1).1 A H2).1 s A m u).2.filter isDelivery =
      [Action.emitReceiveImage H2 s m u]) ∧
    ((typing (user_login (user_login st A H1).1 A H2).1 s A).2 =
      [Action.emitUserTyping H2 s]) := by
  have hget : mapGet ((user_login (user_login st A H1).1 A H2).1).onlineUsers A = some H2 := by
    simp [user_login, mapGet_mapSet_self]
  refine ⟨hget, ?_, ?_, ?_⟩ <;>
    simp [send_message, send_image, typing, hget, isDelivery]

/-- Claim C6 (counterexample): identity 7 logs in on handle "H", then
identity 3 logs in on the same handle "H" (a second `user_login` on the
same socket with a different id); when "H" disconnects, the delete loop
removes only the first matching entry (identity 7) and breaks, so the
next broadcast still includes identity 3 even though 3's handle "H"
disconnected and 3 never re-bound via another handle — refuting the
claim that the broadcast after a disconnect excludes the identity. -/
theorem C6_shared_handle_survivor_counterexample :
    3 ∈ mapKeys (disconnect (user_login (user_login initialState 7 "H").1 3 "H").1 "H").1.onlineUsers ∧
    (disconnect (user_login (user_login initialState 7 "H").1 3 "H").1 "H").2 =
      [Action.emitOnlineUsers [3], Action.logDisconnect "H"] := by decide

/-- Claim C6 (amended): after login of identity A on a handle, the
snapshot broadcast to all connections includes A; and after a disconnect
of handle Hd the next broadcast excludes A provided A's entry is the
first one (in insertion order) bound to Hd — i.e. no other identity was
bound to Hd before A — and identities are unique in the registry. -/
theorem C6_login_includes_disconnect_excludes (st std : ServerState) (A : Nat)
    (H Hd : String) (l1 l2 : List (Nat × String))
    (hsplit : std.onlineUsers = l1 ++ (A, Hd) :: l2)
    (hfirst : ∀ p ∈ l1, p.2 ≠ Hd)
    (hnodup : (mapKeys std.onlineUsers).Nodup) :
    A ∈ mapKeys (user_login st A H).1.onlineUsers ∧
    (user_login st A H).2 =
      [Action.emitOnlineUsers (mapKeys (user_login st A H).1.onlineUsers)] ∧
    A ∉ mapKeys (disconnect std Hd).1.onlineUsers ∧
    (disconnect std Hd).2 =
      [Action.emitOnlineUsers (mapKeys (disconnect std Hd).1.onlineUsers),
       Action.logDisconnect Hd] := by
  refine ⟨?_, rfl, ?_, rfl⟩
  · simpa [user_login] using mem_mapKeys_mapSet st.onlineUsers A H
  · have hd : (disconnect std Hd).1.onlineUsers = l1 ++ l2 := by
      simp [disconnect, hsplit, deleteFirstMatch_append l1 A Hd l2 hfirst]
    rw [hd]
    rw [hsplit] at hnodup
    simp [mapKeys, List.nodup_append] at hnodup
    simp [mapKeys]
    exact ⟨hnodup.2.2.1, hnodup.2.1.1⟩

/-- Witness for C6: identity 3 alone on handle "H"; its login broadcast
includes 3, and the broadcast after "H" disconnects excludes 3. -/
theorem C6_witness :
    3 ∈ mapKeys (user_login initialState 3 "G").1.onlineUsers ∧
    (user_login initialState 3 "G").2 =
      [Action.emitOnlineUsers (mapKeys (user_login initialState 3 "G").1.onlineUsers)] ∧
    3 ∉ mapKeys (disconnect ⟨[(3, "H")], []⟩ "H").1.onlineUsers ∧
    (disconnect ⟨[(3, "H")], []⟩ "H").2 =
      [Action.emitOnlineUsers (mapKeys (disconnect ⟨[(3, "H")], []⟩ "H").1.onlineUsers),
       Action.logDisconnect "H"] :=
  C6_login_includes_disconnect_excludes initialState ⟨[(3, "H")], []⟩ 3 "G" "H" [] []
    rfl (by decide) (by decide)

/-- Claim C7: the typing handler never changes the state (nothing is
persisted), forwards exactly one `user_typing` event carrying the sender
id to the receiver's mapped socket when the receiver is in the
online-users map, and silently emits nothing when absent; being a total
function on every state, it never fails. -/
theorem C7_typing_relay (st : ServerState) (s r : Nat) :
    (typing st s r).1 = st ∧
    (typing st s r).2.filter isPersist = [] ∧
    ((typing st s r).2 =
      match mapGet st.onlineUsers r with
      | some sock => [Action.emitUserTyping sock s]
      | none => []) := by
  refine ⟨?_, ?_, ?_⟩ <;>
    cases h : mapGet st.onlineUsers r <;>
      simp [typing, h, isPersist]

/-- Claim C8: in the action trace of every handler, no real-time delivery
emission occurs before a persisted row (deliveries happen only inside
the success continuation of the INSERT), and on success the first action
of each send handler is the insertion of exactly the row being sent. -/
theorem C8_persist_precedes_delivery (b : Bool) (st : ServerState)
    (s r uid rid : Nat) (m : Option String) (t : Nat) (sock : String) :
    noDeliveryBeforePersist (send_message b st s r m t).2 = true ∧
    noDeliveryBeforePersist (send_image b st s r m t).2 = true ∧
    (send_message true st s r m t).2.head? = some (Action.persistRow s r m none) ∧
    (send_image true st s r m t).2.head? = some (Action.persistRow s r none m) ∧
    noDeliveryBeforePersist (user_login st uid sock).2 = true ∧
    noDeliveryBeforePersist (typing st s rid).2 = true ∧
    noDeliveryBeforePersist (disconnect st sock).2 = true := by
  refine ⟨?_, ?_, ?_, ?_, ?_, ?_, ?_⟩ <;>
    cases b <;>
      first
        | (cases h : mapGet st.onlineUsers r <;>
            simp [send_message, send_image, h, noDeliveryBeforePersist,
              isPersist, isDelivery])
        | (cases h : mapGet st.onlineUsers rid <;>
            simp [user_login, typing, disconnect, h, noDeliveryBeforePersist,
              isPersist, isDelivery])

/-- Claim C9: a disconnect for a handle bound to no identity leaves the
online-users map (and the whole state) unchanged and raises no error —
the handler just re-broadcasts the unchanged key set and logs. -/
theorem C9_disconnect_unbound_noop (st : ServerState) (H : String)
    (h : ∀ p ∈ st.onlineUsers, p.2 ≠ H) :
    (disconnect st H).1 = st ∧
    (disconnect st H).2 =
      [Action.emitOnlineUsers (mapKeys st.onlineUsers), Action.logDisconnect H] := by
  have hd : deleteFirstMatch st.onlineUsers H = st.onlineUsers :=
    deleteFirstMatch_eq_self st.onlineUsers H h
  constructor
  · simp [disconnect, hd]
  · simp [disconnect, hd]

/-- Witness for C9: a disconnect on the empty registry. -/
theorem C9_witness :
    (disconnect initialState "h").1 = initialState ∧
    (disconnect initialState "h").2 =
      [Action.emitOnlineUsers (mapKeys initialState.onlineUsers),
       Action.logDisconnect "h"] :=
  C9_disconnect_unbound_noop initialState "h" (by decide)

/-- Claim C10: a disconnect removes at most one entry from the
online-users map — the result is a sublist of the original losing at
most one element — and every entry after the first entry bound to the
terminated handle survives, so when two identities share a handle the
later-bound identity's entry outlives the disconnect. -/
theorem C10_disconnect_removes_at_most_first (st : ServerState) (H : String) :
    List.Sublist (disconnect st H).1.onlineUsers st.onlineUsers ∧
    st.onlineUsers.length ≤ (disconnect st H).1.onlineUsers.length + 1 ∧
    ∀ l1 B l2 p, st.onlineUsers = l1 ++ (B, H) :: l2 → p ∈ l2 →
      p ∈ (disconnect st H).1.onlineUsers := by
  refine ⟨?_, ?_, ?_⟩
  · simpa [disconnect] using deleteFirstMatch_sublist st.onlineUsers H
  · simpa [disconnect] using length_deleteFirstMatch st.onlineUsers H
  · intro l1 B l2 p hsp hp
    have := mem_deleteFirstMatch_suffix l1 B H l2 p hp
    simpa [disconnect, hsp] using this

/-- Witness for C10: identities 7 and 3 both bound to handle "H"; after
"H" disconnects, identity 3's entry survives. -/
theorem C10_witness :
    (3, "H") ∈ (disconnect ⟨[(7, "H"), (3, "H")], []⟩ "H").1.onlineUsers :=
  (C10_disconnect_removes_at_most_first ⟨[(7, "H"), (3, "H")], []⟩ "H").2.2
    [] 7 [(3, "H")] (3, "H") rfl (by decide)

end Mingle
